import Mathlib

/-
Shallow embedding of the REST_x_react_mvp front-end components:

* GenericModelSelect (src/react/locallibrary_frontend/src/components/FormSelection/GenericModelSelect.jsx,
  the full-featured second version in that file: the one taking canSelectMultiple,
  with getAPIRouteFromModelName, parseModelListForFormOptions and shapeAuthorResults)
* GenreMultiSelect (src/react/locallibrary_frontend/src/components/genre/GenreMultiSelect.jsx)

JavaScript records that the component reads are modelled as `Record`s whose
optional fields are `Option String` (a missing field is `none`, which JS string
interpolation renders as "undefined").  The component's three pieces of React
state (models, isLoading, error) form `ComponentState`; `setError` is called
with null, false or an error value, modelled by `ErrorState`.
-/

/-- A JavaScript record as returned in the API response `results` array.
Genre/language records carry `name`; author records carry `first_name`,
`last_name` (and `url` etc.); fields the record does not have are `none`. -/
structure Record where
  id : Nat
  name : Option String := none
  first_name : Option String := none
  last_name : Option String := none
  url : Option String := none
deriving Repr, DecidableEq

/-- The JSON body of the GET response: `{ results: Array<Record> }`. -/
structure ResponseData where
  results : List Record
deriving Repr, DecidableEq

/-- The component's `error` state: `useState(null)`, `setError(false)` on
success, `setError(e)` with an error value (axios error or message string)
on failure. -/
inductive ErrorState where
  | null
  | falseVal
  | err (msg : String)
deriving Repr, DecidableEq

/-- JS truthiness of the `error` state, as used by `!error` and `disabled={error}`:
null and false are falsy, any error value is truthy. -/
def ErrorState.truthy : ErrorState → Bool
  | .err _ => true
  | _ => false

/-- JS template interpolation of the error state. -/
def ErrorState.display : ErrorState → String
  | .null => "null"
  | .falseVal => "false"
  | .err m => m

/-- The component's local React state triple. -/
structure ComponentState where
  models : List Record
  isLoading : Bool
  error : ErrorState
deriving Repr, DecidableEq

/-- State after the three useState initialisers:
`useState([])`, `useState(false)`, `useState(null)`. -/
def initialComponentState : ComponentState :=
  { models := [], isLoading := false, error := .null }

/-- JS string interpolation of an optional field: a missing field prints as
"undefined". -/
def jsToString : Option String → String
  | some s => s
  | none => "undefined"

/-- `shapeAuthorResults`: maps each author record `{id, first_name, last_name, ...}`
to an object with only `id` and `name := first_name + " " + last_name`. -/
def shapeAuthorResults (authorArray : List Record) : List Record :=
  authorArray.map fun a =>
    let name := jsToString a.first_name ++ " " ++ jsToString a.last_name
    { id := a.id, name := some name }

/-- Result of `parseModelListForFormOptions`: the returned options array,
plus the message passed to `setError` in the invalid-model branch (`none`
when `setError` was not called). -/
structure ParseOutcome where
  output : List Record
  errorSet : Option String
deriving Repr, DecidableEq

/-- `parseModelListForFormOptions`: branches on the modelName strings; book and
bookinstance return hard-coded DUMMY records, author goes through
`shapeAuthorResults`, genre and language pass `responseData.results` through
unchanged, and an unrecognised name sets an error and returns the empty array. -/
def parseModelListForFormOptions (modelName : String) (responseData : ResponseData) :
    ParseOutcome :=
  let isBook := modelName == "book"
  let isBookInstance := modelName == "bookinstance"
  let isAuthor := modelName == "author"
  let isGenre := modelName == "genre"
  let isLanguage := modelName == "language"
  if isBook then
    { output := [{ id := 1, name := some "DUMMY BOOK" },
                 { id := 2, name := some "SECOND DUMMY BOOK" }],
      errorSet := none }
  else if isBookInstance then
    { output := [{ id := 1, name := some "DUMMY BOOK INSTANCE" },
                 { id := 2, name := some "SECOND DUMMY INSTANCE" }],
      errorSet := none }
  else if isAuthor then
    { output := shapeAuthorResults responseData.results, errorSet := none }
  else if isGenre then
    { output := responseData.results, errorSet := none }
  else if isLanguage then
    { output := responseData.results, errorSet := none }
  else
    { output := [],
      errorSet := some ("Given invalid modelName in generic model select:" ++ modelName) }

/-- `getAPIRouteFromModelName`: returns `modelName + "s"` for the five known
model names, otherwise sets an error and returns the empty route.  The second
component records the `setError` call (`none` when not called). -/
def getAPIRouteFromModelName (modelName : String) : String × Option String :=
  let isBook := modelName == "book"
  let isBookInstance := modelName == "bookinstance"
  let isAuthor := modelName == "author"
  let isGenre := modelName == "genre"
  let isLanguage := modelName == "language"
  if isBook || isBookInstance || isAuthor || isGenre || isLanguage then
    (modelName ++ "s", none)
  else
    ("", some ("Given invalid modelName in API route selector:" ++ modelName))

/-- The axios GET request configuration: the URL and the fixed `timeout: 5000`. -/
structure AxiosRequest where
  url : String
  timeout : Nat
deriving Repr, DecidableEq

/-- `fetchModelHandler` up to issuing the request: `setIsLoading(true)`,
`setError(null)`, compute the route (which may itself `setError`), and build
the axios GET request `http://localhost:8000/api/{route}/` with timeout 5000. -/
def fetchStart (modelName : String) (s : ComponentState) :
    ComponentState × AxiosRequest :=
  let s1 := { s with isLoading := true, error := ErrorState.null }
  let routeResult := getAPIRouteFromModelName modelName
  let s2 := match routeResult.2 with
    | some m => { s1 with error := ErrorState.err m }
    | none => s1
  (s2, { url := "http://localhost:8000/api/" ++ routeResult.1 ++ "/", timeout := 5000 })

/-- The GET requests issued by the mount effect.  The effect has an empty
dependency array and its body calls `fetchModelHandler()` exactly once, which
contains a single `axios.get` call, so one mount issues exactly this one
request. -/
def mountRequests (modelName : String) : List AxiosRequest :=
  [(fetchStart modelName initialComponentState).2]

/-- How the in-flight request settles: the `.then` chain receives the parsed
data on success, the `.catch` receives an error (network failure, timeout, or
the CanceledError produced by `controller.abort()`). -/
inductive FetchOutcome where
  | success (data : ResponseData)
  | failure (message : String)
deriving Repr, DecidableEq

/-- The state transition applied when the request settles.  On success, the
`.then` handler checks the `ignore_request_output` stale flag before touching
state (`setError(false)`, parse — whose invalid branch may `setError` — then
`setIsLoading(false)`, `setModels(...)`).  On failure, the `.catch` handler
unconditionally runs `setIsLoading(false)` and `setError(error)`: it does not
consult the stale flag. -/
def applySettled (modelName : String) (ignore_request_output : Bool)
    (outcome : FetchOutcome) (s : ComponentState) : ComponentState :=
  match outcome with
  | .success data =>
      if !ignore_request_output then
        let s1 := { s with error := ErrorState.falseVal }
        let parsed := parseModelListForFormOptions modelName data
        let s2 := match parsed.errorSet with
          | some m => { s1 with error := ErrorState.err m }
          | none => s1
        { s2 with isLoading := false, models := parsed.output }
      else s
  | .failure message => { s with isLoading := false, error := ErrorState.err message }

/-- One selected `<option>` element as reported by the change event. -/
structure SelectedOption where
  value : String
deriving Repr, DecidableEq

/-- The `event.target` of the select change event. -/
structure ChangeTarget where
  value : String
  selectedOptions : List SelectedOption
deriving Repr, DecidableEq

/-- A JS number: an integer or NaN. -/
inductive JSNumber where
  | num (n : Int)
  | nan
deriving Repr, DecidableEq

/-- Value of a decimal digit character, `none` for a non-digit. -/
def decDigit (c : Char) : Option Nat :=
  if c.isDigit then some (c.toNat - 48) else none

/-- Reads a nonempty all-digit character list as a natural number
(most significant digit first); `none` on any non-digit. -/
def decNat? (cs : List Char) : Option Nat :=
  cs.foldl (fun acc c =>
    match acc, decDigit c with
    | some n, some d => some (n * 10 + d)
    | _, _ => none) (some 0)

/-- JS unary `+` on an option value string, on the strings that occur as
option values: the empty string is 0, an optional minus sign followed by
decimal digits is that integer, anything else is NaN. -/
def jsUnaryPlus (s : String) : JSNumber :=
  match s.data with
  | [] => .num 0
  | ['-'] => .nan
  | '-' :: rest =>
      match decNat? rest with
      | some n => .num (-(n : Int))
      | none => .nan
  | cs =>
      match decNat? cs with
      | some n => .num n
      | none => .nan

/-- The `selectedValues` field of the change object: an array of numbers in the
multi-select branch, the raw string in the single-select branch. -/
inductive SelectedValues where
  | multi (vals : List JSNumber)
  | single (val : String)
deriving Repr, DecidableEq

/-- The `changeObject` passed to the parent's onChange callback. -/
structure ChangeObject where
  modelName : String
  selectedValues : SelectedValues
deriving Repr, DecidableEq

/-- `handleSelectChange` of GenericModelSelect: multi-select maps
`Array.from(target.selectedOptions)` through `option => +option.value`;
single-select takes `target.value` as is; either way the handler sends
`{modelName, selectedValues}` up to `parentOnChange`. -/
def handleSelectChange (modelName : String) (canSelectMultiple : Bool)
    (target : ChangeTarget) : ChangeObject :=
  let selected : SelectedValues :=
    if canSelectMultiple then
      .multi (target.selectedOptions.map fun option => jsUnaryPlus option.value)
    else
      .single target.value
  { modelName := modelName, selectedValues := selected }

/-- An observable effect performed by a change handler: a console log of the
computed array, or a call to the parent-supplied onChange callback. -/
inductive HandlerEffect where
  | consoleLog (vals : List JSNumber)
  | callParentOnChange (payload : ChangeObject)
deriving Repr, DecidableEq

/-- Whether an effect is a call to the parent onChange callback. -/
def HandlerEffect.isCallOnChange : HandlerEffect → Bool
  | .callParentOnChange _ => true
  | _ => false

/-- `handleSelectChange` of GenreMultiSelect: builds `options_array` from the
selected options via `option => +option.value`, logs it with `console.info`,
and ends — the body contains no call to the `onChange` prop. -/
def genreMultiSelectHandleSelectChange (selectedOptions : List SelectedOption) :
    List HandlerEffect :=
  let options_array := selectedOptions.map fun option => jsUnaryPlus option.value
  [HandlerEffect.consoleLog options_array]

/-- What GenericModelSelect renders for `content`: either the populated
select (success branch) or the single-option fallback select (else branch,
always rendered with the `disabled` attribute). -/
inductive RenderedContent where
  | optionsSelect (size : String) (ariaLabel : String) (multiple : Bool)
      (disabled : Bool) (options : List Record)
  | fallbackSelect (size : String) (ariaLabel : String) (disabled : Bool)
      (text : Option String)
deriving Repr, DecidableEq

/-- The `size` attribute string of either rendered select. -/
def RenderedContent.sizeStr : RenderedContent → String
  | .optionsSelect s _ _ _ _ => s
  | .fallbackSelect s _ _ _ => s

/-- The `only_value_text` computation of the else branch: `let` leaves it
undefined (`none`), then three successive `if` statements each overwrite it —
zero models, then a truthy error, then loading. -/
def only_value_text (modelName : String) (models : List Record)
    (isLoading : Bool) (error : ErrorState) : Option String :=
  let t1 : Option String :=
    if models.length == 0 then some ("No " ++ modelName ++ " s Found") else none
  let t2 := if error.truthy then some error.display else t1
  if isLoading then some "Loading..." else t2

/-- The render logic for `content`: with at least one model and a falsy error,
render the populated select with `size` the string of `length <= 8 ?
length : 8`, the multi flag, and `disabled={error}`; otherwise render the
disabled single-row fallback select showing `only_value_text`. -/
def renderContent (modelName : String) (canSelectMultiple : Bool)
    (models : List Record) (isLoading : Bool) (error : ErrorState) :
    RenderedContent :=
  if models.length > 0 && !error.truthy then
    .optionsSelect
      (toString (if models.length <= 8 then models.length else 8))
      (modelName ++ " " ++ (if canSelectMultiple then "Multi-Select" else "Select"))
      canSelectMultiple
      error.truthy
      models
  else
    .fallbackSelect "1" (modelName ++ " Select") true
      (only_value_text modelName models isLoading error)

/-- A record is well formed for a model kind when the fields that kind's
normalization rule reads are present: `first_name` and `last_name` for author,
`name` for the other kinds. -/
def wellFormedRecord (kind : String) (r : Record) : Bool :=
  if kind == "author" then r.first_name.isSome && r.last_name.isSome
  else r.name.isSome

/-- A response is well formed for a kind when every record in `results` is. -/
def wellFormedResponse (kind : String) (rd : ResponseData) : Bool :=
  rd.results.all (wellFormedRecord kind)

/-- Modelled from the spec: the normalization table of §4.1, stating the
resulting `name` per kind — `"{first} {last}"` for author, the `name` field
passed through for the others.  Used only to compare the code's parser
against the spec's table. -/
def specTableName (kind : String) (r : Record) : Option String :=
  if kind == "author" then
    match r.first_name, r.last_name with
    | some f, some l => some (f ++ " " ++ l)
    | _, _ => none
  else r.name

/-- Helper: shapeAuthorResults preserves the number of records. -/
theorem shapeAuthorResults_length (rs : List Record) :
    (shapeAuthorResults rs).length = rs.length := by
  simp [shapeAuthorResults]

/-- Helper: on author-well-formed records, the names produced by
shapeAuthorResults agree with the spec table's author rule. -/
theorem shapeAuthorResults_names (rs : List Record)
    (h : rs.all (wellFormedRecord "author") = true) :
    (shapeAuthorResults rs).map (fun r => r.name) = rs.map (specTableName "author") := by
  induction rs with
  | nil => rfl
  | cons a t ih =>
    rw [List.all_cons, Bool.and_eq_true] at h
    obtain ⟨ha, ht⟩ := h
    have ha' : a.first_name.isSome = true ∧ a.last_name.isSome = true := by
      simpa [wellFormedRecord] using ha
    obtain ⟨f, hf⟩ := Option.isSome_iff_exists.mp ha'.1
    obtain ⟨l, hl⟩ := Option.isSome_iff_exists.mp ha'.2
    have iht := ih ht
    simp [shapeAuthorResults, specTableName, jsToString, hf, hl] at iht ⊢
    exact iht

/-- C1: the spec demands that modelKind "book"/"bookinstance" surface an
UnsupportedKindError; the code instead returns the hard-coded DUMMY
placeholder records without setting any error, and the settled state after a
successful response is a non-error success state holding those placeholders. -/
theorem parse_book_returns_dummy_not_error (rd : ResponseData) :
    parseModelListForFormOptions "book" rd =
      { output := [{ id := 1, name := some "DUMMY BOOK" },
                   { id := 2, name := some "SECOND DUMMY BOOK" }],
        errorSet := none } ∧
    applySettled "book" false (FetchOutcome.success rd)
        (fetchStart "book" initialComponentState).1 =
      { models := [{ id := 1, name := some "DUMMY BOOK" },
                   { id := 2, name := some "SECOND DUMMY BOOK" }],
        isLoading := false, error := ErrorState.falseVal } ∧
    ErrorState.falseVal.truthy = false := by
  exact ⟨rfl, rfl, rfl⟩

/-- C2: after the cleanup has run (ignore_request_output is true and the
request was aborted), the abort rejection reaches the catch handler, which
ignores the stale flag and still applies setIsLoading(false) and
setError(CanceledError): the post-unmount state is mutated, contradicting the
claim that no state update of any kind is applied. -/
theorem abort_catch_mutates_state_after_unmount :
    applySettled "genre" true (FetchOutcome.failure "CanceledError: canceled")
        (fetchStart "genre" initialComponentState).1 =
      { models := [], isLoading := false,
        error := ErrorState.err "CanceledError: canceled" } ∧
    applySettled "genre" true (FetchOutcome.failure "CanceledError: canceled")
        (fetchStart "genre" initialComponentState).1 ≠
      (fetchStart "genre" initialComponentState).1 := by
  exact ⟨rfl, by decide⟩

/-- C3: in the multi-select branch the emitted payload is the selected
options' values, each coerced to a number by unary plus, in the order the
control reports them; in particular values "1" and "3" yield the numbers
1 and 3, not strings. -/
theorem multi_select_emits_numbers_in_order (modelName : String)
    (target : ChangeTarget) :
    handleSelectChange modelName true target =
      { modelName := modelName,
        selectedValues := SelectedValues.multi
          (target.selectedOptions.map fun option => jsUnaryPlus option.value) } ∧
    handleSelectChange "genre" true
        { value := "3", selectedOptions := [{ value := "1" }, { value := "3" }] } =
      { modelName := "genre",
        selectedValues := SelectedValues.multi [JSNumber.num 1, JSNumber.num 3] } := by
  exact ⟨rfl, by decide⟩

/-- C4: for an author record with first_name and last_name present,
normalization produces an option whose name is the first name, a space, then
the last name, and whose id is the record's id unchanged. -/
theorem shapeAuthorResults_name_and_id (r : Record) (f l : String)
    (hf : r.first_name = some f) (hl : r.last_name = some l) :
    shapeAuthorResults [r] = [{ id := r.id, name := some (f ++ " " ++ l) }] := by
  simp [shapeAuthorResults, jsToString, hf, hl]

/-- C4 witness: the record {first_name: "Jane", last_name: "Austen"} yields
name "Jane Austen" with the id passed through. -/
theorem shapeAuthorResults_name_and_id_witness :
    shapeAuthorResults
        [{ id := 7, first_name := some "Jane", last_name := some "Austen",
           url := some "http://localhost:8000/api/authors/7/" }] =
      [{ id := 7, name := some "Jane Austen" }] :=
  shapeAuthorResults_name_and_id _ "Jane" "Austen" rfl rfl

/-- C5: for author, genre and language, a well-formed response with N records
parses to exactly N options, with no error set, and with each option's name
given by the spec table's rule for that kind. -/
theorem supported_kinds_yield_n_options_with_table_names (kind : String)
    (rd : ResponseData)
    (hk : kind = "author" ∨ kind = "genre" ∨ kind = "language")
    (hwf : wellFormedResponse kind rd = true) :
    (parseModelListForFormOptions kind rd).errorSet = none ∧
    (parseModelListForFormOptions kind rd).output.length = rd.results.length ∧
    (parseModelListForFormOptions kind rd).output.map (fun r => r.name) =
      rd.results.map (specTableName kind) := by
  rcases hk with h | h | h <;> subst h
  · refine ⟨rfl, ?_, ?_⟩
    · exact shapeAuthorResults_length rd.results
    · exact shapeAuthorResults_names rd.results hwf
  · exact ⟨rfl, rfl, (List.map_congr_left fun r _ => rfl).symm⟩
  · exact ⟨rfl, rfl, (List.map_congr_left fun r _ => rfl).symm⟩

/-- C5 witness: a one-record author response parses to one option named
"Jane Austen" with no error. -/
theorem supported_kinds_yield_n_options_with_table_names_witness :
    wellFormedResponse "author"
        { results := [{ id := 7, first_name := some "Jane",
                        last_name := some "Austen" }] } = true ∧
    (parseModelListForFormOptions "author"
        { results := [{ id := 7, first_name := some "Jane",
                        last_name := some "Austen" }] }).errorSet = none ∧
    (parseModelListForFormOptions "author"
        { results := [{ id := 7, first_name := some "Jane",
                        last_name := some "Austen" }] }).output.length = 1 ∧
    (parseModelListForFormOptions "author"
        { results := [{ id := 7, first_name := some "Jane",
                        last_name := some "Austen" }] }).output.map (fun r => r.name) =
      [some "Jane Austen"] := by
  have h := supported_kinds_yield_n_options_with_table_names "author"
    { results := [{ id := 7, first_name := some "Jane", last_name := some "Austen" }] }
    (Or.inl rfl) (by decide)
  exact ⟨by decide, h.1, h.2.1, h.2.2.trans (by decide)⟩

/-- C6 counterexample: with modelKind "genre", zero results, no error and not
loading, the rendered fallback message is "No genre s Found" (a stray space
before the pluralising s), not the claimed "No genres Found". -/
theorem zero_results_message_counterexample :
    renderContent "genre" false [] false ErrorState.null =
      RenderedContent.fallbackSelect "1" "genre Select" true (some "No genre s Found") ∧
    renderContent "genre" false [] false ErrorState.null ≠
      RenderedContent.fallbackSelect "1" "genre Select" true (some "No genres Found") := by
  exact ⟨by decide, by decide⟩

/-- C6 amended: with zero options, a falsy error and not loading, the
component renders the disabled single-row fallback select whose visible
content is the message "No {kind} s Found" (the template puts a space between
the kind and the pluralising s). -/
theorem zero_results_render_no_found_message (modelName : String)
    (canSelectMultiple : Bool) (error : ErrorState) (h : error.truthy = false) :
    renderContent modelName canSelectMultiple [] false error =
      RenderedContent.fallbackSelect "1" (modelName ++ " Select") true
        (some ("No " ++ modelName ++ " s Found")) := by
  simp [renderContent, only_value_text, h]

/-- C6 witness: the amended statement at modelKind "genre" with a null error. -/
theorem zero_results_render_no_found_message_witness :
    ErrorState.null.truthy = false ∧
    renderContent "genre" false [] false ErrorState.null =
      RenderedContent.fallbackSelect "1" "genre Select" true (some "No genre s Found") :=
  ⟨rfl, zero_results_render_no_found_message "genre" false ErrorState.null rfl⟩

/-- C7: in the single-select branch the handler emits the control's raw string
value unchanged, and the payload is the change object pairing the component's
model kind with the selected values. -/
theorem single_select_emits_raw_string (modelName : String) (target : ChangeTarget) :
    handleSelectChange modelName false target =
      { modelName := modelName, selectedValues := SelectedValues.single target.value } :=
  rfl

/-- C8: for each of the five supported model kinds, one mount issues exactly
one GET request, to the collection endpoint `/api/{kind}s/` with the fixed
5000 ms timeout. -/
theorem mount_issues_single_get_with_timeout (kind : String)
    (hk : kind ∈ ["book", "bookinstance", "author", "genre", "language"]) :
    mountRequests kind =
      [{ url := "http://localhost:8000/api/" ++ kind ++ "s/", timeout := 5000 }] := by
  simp only [List.mem_cons, List.not_mem_nil, or_false] at hk
  rcases hk with h | h | h | h | h <;> subst h <;> rfl

/-- C8 witness: kind "genre" issues the single request to /api/genres/ with
timeout 5000. -/
theorem mount_issues_single_get_with_timeout_witness :
    ("genre" ∈ ["book", "bookinstance", "author", "genre", "language"]) ∧
    mountRequests "genre" =
      [{ url := "http://localhost:8000/api/genres/", timeout := 5000 }] :=
  ⟨by decide, mount_issues_single_get_with_timeout "genre" (by decide)⟩

/-- C9: the GenreMultiSelect change handler computes the selected options'
values coerced to numbers — the same array the generic multi-select branch
would emit — but its effect trace is only the console log: it contains no
call to the parent onChange callback. -/
theorem genre_multiselect_only_logs_selection (selectedOptions : List SelectedOption) :
    genreMultiSelectHandleSelectChange selectedOptions =
      [HandlerEffect.consoleLog
        (selectedOptions.map fun option => jsUnaryPlus option.value)] ∧
    (genreMultiSelectHandleSelectChange selectedOptions).all
      (fun e => !e.isCallOnChange) = true ∧
    (handleSelectChange "genre" true
        { value := "", selectedOptions := selectedOptions }).selectedValues =
      SelectedValues.multi (selectedOptions.map fun option => jsUnaryPlus option.value) := by
  exact ⟨rfl, rfl, rfl⟩

/-- C10: in the success render (at least one option, falsy error) the size
attribute is the option count when that count is at most 8 and is 8
otherwise, and in all cases it is one of the strings "0".."8" — it never
exceeds 8. -/
theorem success_render_size_capped (modelName : String) (canSelectMultiple : Bool)
    (models : List Record) (isLoading : Bool) (error : ErrorState)
    (h1 : 0 < models.length) (h2 : error.truthy = false) :
    (models.length ≤ 8 →
      (renderContent modelName canSelectMultiple models isLoading error).sizeStr =
        toString models.length) ∧
    (8 < models.length →
      (renderContent modelName canSelectMultiple models isLoading error).sizeStr =
        toString 8) ∧
    (renderContent modelName canSelectMultiple models isLoading error).sizeStr ∈
      (List.range 9).map toString := by
  have hcond : (decide (models.length > 0) && !error.truthy) = true := by
    rw [h2]
    simpa using h1
  have hrc : (renderContent modelName canSelectMultiple models isLoading error).sizeStr =
      toString (if models.length ≤ 8 then models.length else 8) := by
    unfold renderContent
    rw [hcond]
    rfl
  refine ⟨?_, ?_, ?_⟩
  · intro hle
    rw [hrc, if_pos hle]
  · intro hgt
    rw [hrc, if_neg (Nat.not_le_of_lt hgt)]
  · rw [hrc]
    refine List.mem_map_of_mem toString ?_
    rw [List.mem_range]
    split <;> omega

/-- C10 witness: with ten options and error false, the size attribute is the
string of 8. -/
theorem success_render_size_capped_witness :
    0 < (List.replicate 10 ({ id := 1 } : Record)).length ∧
    (renderContent "genre" true (List.replicate 10 ({ id := 1 } : Record)) false
        ErrorState.falseVal).sizeStr = toString 8 :=
  ⟨by decide,
    (success_render_size_capped "genre" true (List.replicate 10 ({ id := 1 } : Record))
        false ErrorState.falseVal (by decide) rfl).2.1 (by decide)⟩
